import Mathlib

/-!
Shallow embedding of the udjat SQLite protocol module (durable outbox
dispatcher).  The two translation units embedded here are the two variants
of `SQLite::Protocol` found in the repository: the one with the
mutex-guarded busy flag inside `send()` (called part 000 below) and the one
whose busy flag is managed by the main-loop timer callback and its
worker-pool lambda (part 001).

Modelled state: the persistent queue is a list of records in the order the
`select` template yields them (ascending id for an ordinary outbox schema);
`select.step()` returns the head of that list, `del.bind(1,id).exec()`
removes the processed record, and `select.reset()` before the next `step`
re-executes the query, which is why the recursive calls below run on the
remaining list.  Exceptions are modelled with `Except`/`Option` values;
machine integers are `Int`/`Nat`.
-/

namespace UdjatSQLite

/-- One queued request row as read back by the sweep:
`select.get(0,id); select.get(1,url); select.get(2,action); select.get(3,payload)`. -/
structure Record where
  id : Int
  url : String
  action : String
  payload : String
deriving DecidableEq, Repr

/-- The three-way outcome of `HTTP::MethodFactory(action.c_str())` as consumed
by the `switch` in `send`: the cases `HTTP::Get`, `HTTP::Post`, and `default`. -/
inductive Method where
  | get
  | post
  | other
deriving DecidableEq, Repr

/-- `HTTP::MethodFactory` as the sweep's switch discriminates it: the verbs
GET and POST have their own cases, every other action string falls into the
default case. -/
def MethodFactory (s : String) : Method :=
  if s = "GET" then .get else if s = "POST" then .post else .other

/-- Result of one HTTP call: a full response (any status code, any body), or
a transport-level error (the C++ client throwing). -/
inductive HttpResult where
  | response (status : Nat) (body : String)
  | transportError (msg : String)
deriving DecidableEq, Repr

/-- Outcome of one delivery sweep loop: the rows still in the table, the rows
delivered (in delivery order), the error lines logged for unexpected verbs,
and the message of the exception that aborted the loop, if any. -/
structure SweepResult where
  queue : List Record
  delivered : List Record
  errors : List String
  aborted : Option String
deriving DecidableEq, Repr

/-- The error line logged by the `default:` case of the verb switch. -/
def unexpectedVerb (action : String) : String :=
  "Unexpected verb " ++ action ++ " sending queued request, ignoring"

/-- The `while(select.step() == SQLITE_ROW && mainloop && ...)` loop of
`SQLite::Protocol::send`.  `active` models the main-loop / registration
conjuncts of the loop condition; `g` is `client.get()` on the record's url,
`p` is `client.post(payload)` on the record's url and payload.  On a GET or
POST whose call returns a response, and also on an unrecognized verb (whose
`default:` case only logs and falls out of the switch), control reaches
`del.bind(1,id).exec()` and the row is removed; a transport exception
propagates out of the loop, leaving the current row and everything after it
in the table. -/
def sendLoop (active : Bool) (g : String → HttpResult)
    (p : String → String → HttpResult) : List Record → SweepResult
  | [] => ⟨[], [], [], none⟩
  | r :: rest =>
    if active then
      match MethodFactory r.action with
      | .get =>
        match g r.url with
        | .transportError e => ⟨r :: rest, [], [], some e⟩
        | .response _ _ =>
          let res := sendLoop active g p rest
          ⟨res.queue, r :: res.delivered, res.errors, res.aborted⟩
      | .post =>
        match p r.url r.payload with
        | .transportError e => ⟨r :: rest, [], [], some e⟩
        | .response _ _ =>
          let res := sendLoop active g p rest
          ⟨res.queue, r :: res.delivered, res.errors, res.aborted⟩
      | .other =>
        let res := sendLoop active g p rest
        ⟨res.queue, res.delivered, unexpectedVerb r.action :: res.errors, res.aborted⟩
    else ⟨r :: rest, [], [], none⟩

/-- Variant of the sweep loop in which rows are inserted concurrently:
`arrivals.head` is the batch of rows committed by other threads during the
current iteration (they become visible because `select.reset()` re-executes
the query before the next `step`).  Once the schedule is exhausted the loop
behaves exactly as `sendLoop`.  When the loop exits (empty step result) or
aborts, later scheduled batches are moot for this sweep. -/
def sendLoopIns (g : String → HttpResult) (p : String → String → HttpResult) :
    List (List Record) → List Record → SweepResult
  | [], q => sendLoop true g p q
  | _ :: _, [] => ⟨[], [], [], none⟩
  | arr :: arrs, r :: rest =>
    match MethodFactory r.action with
    | .get =>
      match g r.url with
      | .transportError e => ⟨(r :: rest) ++ arr, [], [], some e⟩
      | .response _ _ =>
        let res := sendLoopIns g p arrs (rest ++ arr)
        ⟨res.queue, r :: res.delivered, res.errors, res.aborted⟩
    | .post =>
      match p r.url r.payload with
      | .transportError e => ⟨(r :: rest) ++ arr, [], [], some e⟩
      | .response _ _ =>
        let res := sendLoopIns g p arrs (rest ++ arr)
        ⟨res.queue, r :: res.delivered, res.errors, res.aborted⟩
    | .other =>
      let res := sendLoopIns g p arrs (rest ++ arr)
      ⟨res.queue, res.delivered, unexpectedVerb r.action :: res.errors, res.aborted⟩

/-- The transport succeeds on this record's call: GET records get a response
from `g`, POST records from `p`; an unrecognized verb never calls the
transport. -/
def callsTransportOk (g : String → HttpResult) (p : String → String → HttpResult)
    (r : Record) : Prop :=
  match MethodFactory r.action with
  | .get => ∃ st b, g r.url = .response st b
  | .post => ∃ st b, p r.url r.payload = .response st b
  | .other => False

/-- The transport raises a transport-level error on this record's call. -/
def transportFails (g : String → HttpResult) (p : String → String → HttpResult)
    (r : Record) : Prop :=
  match MethodFactory r.action with
  | .get => ∃ e, g r.url = .transportError e
  | .post => ∃ e, p r.url r.payload = .transportError e
  | .other => False

/-- Dispatcher-private mutable state: the busy flag and the persistent queue. -/
structure DispState where
  busy : Bool
  queue : List Record
deriving DecidableEq, Repr

/-- The mutex-held check-and-set at the top of part 000's `send`:
`lock_guard lock(guard); if(busy) return; busy = true;`.  Returns whether
this attempt proceeds, and the state afterwards. -/
def tryAcquire (s : DispState) : Bool × DispState :=
  if s.busy then (false, s) else (true, { s with busy := true })

/-- A serialization of `n` racing sweep-start attempts (timer callbacks and
worker-pool callbacks); the mutex makes each check-and-set atomic, so any
interleaving is one such serialization.  Returns how many attempts proceeded
and the final state. -/
def runAttempts : DispState → Nat → Nat × DispState
  | s, 0 => (0, s)
  | s, n + 1 =>
    let first := tryAcquire s
    let rest := runAttempts first.2 n
    ((if first.1 then 1 else 0) + rest.1, rest.2)

/-- The body of the try-block of `send`: constructing the two `Statement`
objects (`prep`, which may throw a store error) followed by the delivery
loop.  Returns the resulting persistent queue together with the exception,
if any, reaching the enclosing catch. -/
def sendBody (prep : Except String Unit) (active : Bool) (g : String → HttpResult)
    (p : String → String → HttpResult) (q : List Record) :
    List Record × Option String :=
  match prep with
  | .error e => (q, some e)
  | .ok _ =>
    let res := sendLoop active g p q
    (res.queue, res.aborted)

/-- What a call of part 000's `send` leaves behind: the dispatcher state, the
warning lines produced by the catch clauses, and the exception propagated to
the caller (always `none`: the boundary catches `std::exception` and `...`). -/
structure SendOutcome where
  state : DispState
  warnings : List String
  propagated : Option String
deriving DecidableEq, Repr

/-- Part 000's `SQLite::Protocol::send`: guarded busy check-and-set, the
try-block around statement preparation and the delivery loop, catch clauses
downgrading any exception to a logged warning, and the unconditional
busy-flag reset after the catch. -/
def send (prep : Except String Unit) (active : Bool) (g : String → HttpResult)
    (p : String → String → HttpResult) (s : DispState) : SendOutcome :=
  if s.busy then ⟨s, [], none⟩
  else
    match sendBody prep active g p s.queue with
    | (q, some e) => ⟨⟨false, q⟩, ["Error sending queued message: " ++ e], none⟩
    | (q, none) => ⟨⟨false, q⟩, [], none⟩

/-- Part 001's timer callback together with the worker lambda it pushes:
`if(!busy) { busy = true; push(lambda); }`.  The lambda wraps `send()` in a
try/catch that downgrades sweep errors to warnings, but the notify block that
follows (building an `SQLState` from `count()`, which executes SQL and may
throw) runs outside that try/catch and before `busy = false`; an exception
there escapes the lambda and the flag is never cleared.  `cr` models the
outcome of that `count()` call; the returned triple is (state, warnings,
exception escaping the worker task). -/
def timerTick (prep : Except String Unit) (g : String → HttpResult)
    (p : String → String → HttpResult) (notify : Bool) (cr : Except String Int)
    (s : DispState) : DispState × List String × Option String :=
  if s.busy then (s, [], none)
  else
    match sendBody prep true g p s.queue with
    | (q, exc) =>
      let w := match exc with
        | some e => ["Error " ++ e ++ " while sending queued requests"]
        | none => []
      if notify then
        match cr with
        | .error e => (⟨true, q⟩, w, some e)
        | .ok _ => (⟨false, q⟩, w, none)
      else (⟨false, q⟩, w, none)

/-- The configuration node as the constructor reads it: the four SQL template
children and the list of `init` statements, in document order.  `none` means
the child element is absent. -/
structure XmlNode where
  insert : Option String
  del : Option String
  select : Option String
  pending : Option String
  inits : List String

/-- The SQL templates held by a fully constructed protocol object. -/
structure ProtocolCfg where
  ins : String
  del : String
  select : String
  pending : String
deriving DecidableEq, Repr

/-- `child_value(node, name, required)`: a missing child throws
`Required child ... not found` when required and yields the empty string
otherwise; a present child yields its (stripped, expanded) text. -/
def child_value (name : String) (child : Option String) (required : Bool) :
    Except String String :=
  match child with
  | none =>
    if required then .error ("Required child " ++ name ++ " not found")
    else .ok ""
  | some s => .ok s

/-- The construction sequence of `SQLite::Protocol::Protocol` as far as it can
throw: the member initializers `ins`, `del`, `select` (required children),
`pending` (optional), then the constructor body executing each `init`
statement via `Database::getInstance().exec`; any error propagates and no
object is produced. -/
def protocolInit (node : XmlNode) (exec : String → Except String Unit) :
    Except String ProtocolCfg :=
  match child_value "insert" node.insert true with
  | .error e => .error e
  | .ok ins =>
    match child_value "delete" node.del true with
    | .error e => .error e
    | .ok d =>
      match child_value "select" node.select true with
      | .error e => .error e
      | .ok sel =>
        match child_value "pending" node.pending false with
        | .error e => .error e
        | .ok pen =>
          match node.inits.forM exec with
          | .error e => .error e
          | .ok _ => .ok ⟨ins, d, sel, pen⟩

/-- `SQLite::Protocol::count`: when the `pending` template is null or empty,
return 0 without touching the database; otherwise run the statement (`step`
plus `get(0, ...)`, modelled by `stepGet`, which may throw).  The second
component counts the SQL statements executed. -/
def count (pending : Option String) (stepGet : Except String Int) :
    Except String Int × Nat :=
  match pending with
  | none => (Except.ok 0, 0)
  | some s => if s.isEmpty then (Except.ok 0, 0) else (stepGet, 1)

/-- Severity levels used by the states the module builds. -/
inductive Level where
  | unimportant
  | warning
  | ready
deriving DecidableEq, Repr

/-- An abstract state as built by `make_shared<Abstract::State>(name, level,
summary)`. -/
structure AbstractState where
  name : String
  level : Level
  summary : String
deriving DecidableEq, Repr

/-- `Logger::Message("... pending requests in the output queue", val)` with
the placeholder substituted by the decimal rendering of `val`. -/
def pluralMessage (val : Nat) : String :=
  toString val ++ " pending requests in the output queue"

/-- Part 000's `SQLite::Protocol::state()`: with a configured `pending`
template the three-way split on `value`; without one, the constant
`none`-named state. -/
def state (pendingConfigured : Bool) (value : Nat) : AbstractState :=
  if pendingConfigured then
    if value = 0 then ⟨"empty", .unimportant, "Output queue is empty"⟩
    else if value = 1 then ⟨"pending", .warning, "One pending request in the output queue"⟩
    else ⟨"pending", .warning, pluralMessage value⟩
  else ⟨"none", .unimportant, "No pending requests"⟩

/-- The message built by part 001's `SQLState` constructor. -/
def sqlStateMsg (value : Nat) : String :=
  if value = 0 then "No pending messages"
  else if value = 1 then "1 pending message"
  else toString value ++ " pending messages"

/-- A transport stub whose GET always returns a 200 response. -/
def gOK : String → HttpResult := fun _ => .response 200 "ok"

/-- A transport stub whose POST always returns a 200 response. -/
def pOK : String → String → HttpResult := fun _ _ => .response 200 "ok"

/-- When the transport succeeds on every record of the queue, the sweep loop
delivers the whole queue in order, leaves the table empty, logs no verb
errors and is not aborted. -/
theorem sendLoop_all_ok (g : String → HttpResult) (p : String → String → HttpResult)
    (q : List Record) (hok : ∀ r ∈ q, callsTransportOk g p r) :
    sendLoop true g p q = ⟨[], q, [], none⟩ := by
  induction q with
  | nil => rfl
  | cons r rest ih =>
    have hr := hok r (List.mem_cons_self r rest)
    have hrest : ∀ x ∈ rest, callsTransportOk g p x :=
      fun x hx => hok x (List.mem_cons_of_mem r hx)
    have ih' := ih hrest
    cases hm : MethodFactory r.action with
    | get =>
      simp only [callsTransportOk, hm] at hr
      obtain ⟨st, b, hg⟩ := hr
      simp [sendLoop, hm, hg, ih']
    | post =>
      simp only [callsTransportOk, hm] at hr
      obtain ⟨st, b, hp⟩ := hr
      simp [sendLoop, hm, hp, ih']
    | other =>
      simp only [callsTransportOk, hm] at hr

/-- When the transport succeeds on the records of `as` and raises on `rk`,
the sweep loop deletes exactly `as`, aborts at `rk`, and leaves `rk` and
everything after it in the table. -/
theorem sendLoop_abort_at (g : String → HttpResult) (p : String → String → HttpResult)
    (as : List Record) (rk : Record) (bs : List Record)
    (hok : ∀ r ∈ as, callsTransportOk g p r) (hfail : transportFails g p rk) :
    ∃ e, sendLoop true g p (as ++ rk :: bs) = ⟨rk :: bs, as, [], some e⟩ := by
  induction as with
  | nil =>
    cases hm : MethodFactory rk.action with
    | get =>
      simp only [transportFails, hm] at hfail
      obtain ⟨e, hg⟩ := hfail
      exact ⟨e, by simp [sendLoop, hm, hg]⟩
    | post =>
      simp only [transportFails, hm] at hfail
      obtain ⟨e, hp⟩ := hfail
      exact ⟨e, by simp [sendLoop, hm, hp]⟩
    | other =>
      simp only [transportFails, hm] at hfail
  | cons a as ih =>
    have ha := hok a (List.mem_cons_self a as)
    have has : ∀ r ∈ as, callsTransportOk g p r :=
      fun x hx => hok x (List.mem_cons_of_mem a hx)
    obtain ⟨e, ihe⟩ := ih has
    cases hm : MethodFactory a.action with
    | get =>
      simp only [callsTransportOk, hm] at ha
      obtain ⟨st, b, hg⟩ := ha
      exact ⟨e, by simp [sendLoop, hm, hg, ihe]⟩
    | post =>
      simp only [callsTransportOk, hm] at ha
      obtain ⟨st, b, hp⟩ := ha
      exact ⟨e, by simp [sendLoop, hm, hp, ihe]⟩
    | other =>
      simp only [callsTransportOk, hm] at ha

/-- Attempts arriving while the busy flag is held are all no-ops. -/
theorem runAttempts_busy (n : Nat) (s : DispState) (h : s.busy = true) :
    runAttempts s n = (0, s) := by
  induction n with
  | zero => rfl
  | succ n ih => simp [runAttempts, tryAcquire, h, ih]

/-- The propagated-exception slot of part 000's `send` is empty on every
path: the catch clauses cover `std::exception` and everything else. -/
theorem send_propagated_none (prep : Except String Unit) (a : Bool)
    (g : String → HttpResult) (p : String → String → HttpResult) (s : DispState) :
    (send prep a g p s).propagated = none := by
  by_cases hb : s.busy
  · simp [send, hb]
  · rcases h : sendBody prep a g p s.queue with ⟨q, _ | e⟩ <;> simp [send, hb, h]

/-- A record whose action string is not a recognized verb, used to exercise
the `default:` case of the sweep's switch. -/
def rPut : Record := ⟨1, "http://x", "PUT", "body"⟩

/-- C1, counterexample to the claim as stated: with a single queued record
whose method is PUT, the sweep logs the unexpected-verb error but the record
is NOT left in the queue — the `default:` case of the switch only logs and
falls through to `del.bind(1,id).exec()`, so the row is deleted. -/
theorem claim_C1_counterexample :
    (sendLoop true gOK pOK [rPut]).queue = [] ∧
    (sendLoop true gOK pOK [rPut]).errors = [unexpectedVerb "PUT"] := by
  exact ⟨rfl, rfl⟩

/-- C1, amended: during a delivery sweep, a queued record whose method string
is neither GET nor POST has the unexpected-verb error logged, the transport
is not called for it, and the record is then deleted from the queue exactly
like a delivered one; the sweep continues with the next record. -/
theorem claim_C1 (g : String → HttpResult) (p : String → String → HttpResult)
    (r : Record) (rest : List Record) (h : MethodFactory r.action = .other) :
    sendLoop true g p (r :: rest) =
      ⟨(sendLoop true g p rest).queue, (sendLoop true g p rest).delivered,
        unexpectedVerb r.action :: (sendLoop true g p rest).errors,
        (sendLoop true g p rest).aborted⟩ := by
  simp [sendLoop, h]

/-- C1, witness: the amended claim evaluated on the concrete PUT record. -/
theorem claim_C1_witness :
    MethodFactory rPut.action = Method.other ∧
    sendLoop true gOK pOK [rPut] =
      ⟨(sendLoop true gOK pOK []).queue, (sendLoop true gOK pOK []).delivered,
        unexpectedVerb rPut.action :: (sendLoop true gOK pOK []).errors,
        (sendLoop true gOK pOK []).aborted⟩ :=
  ⟨by decide, claim_C1 gOK pOK rPut [] (by decide)⟩

/-- C2: if the transport succeeds on `as` and raises a transport error on
`rk`, that sweep deletes exactly `as`, aborts before deleting `rk`, and
leaves `rk :: bs` queued; a subsequent sweep whose transport succeeds on all
of `rk :: bs` delivers them in queue (ascending id) order and empties the
queue. -/
theorem claim_C2 (g g2 : String → HttpResult) (p p2 : String → String → HttpResult)
    (as bs : List Record) (rk : Record)
    (hsorted : (as ++ rk :: bs).Pairwise (fun a b => a.id < b.id))
    (hok : ∀ r ∈ as, callsTransportOk g p r)
    (hfail : transportFails g p rk)
    (hok2 : ∀ r ∈ rk :: bs, callsTransportOk g2 p2 r) :
    (∃ e, sendLoop true g p (as ++ rk :: bs) = ⟨rk :: bs, as, [], some e⟩) ∧
    sendLoop true g2 p2 (rk :: bs) = ⟨[], rk :: bs, [], none⟩ ∧
    (rk :: bs).Pairwise (fun a b => a.id < b.id) := by
  refine ⟨sendLoop_abort_at g p as rk bs hok hfail,
    sendLoop_all_ok g2 p2 _ hok2, ?_⟩
  exact (List.pairwise_append.mp hsorted).2.1

/-- Concrete records and transports for the C2 witness: three GET records,
with the first sweep's transport refusing the second record's url. -/
def recC2a : Record := ⟨1, "ua", "GET", ""⟩

def recC2k : Record := ⟨2, "uk", "GET", ""⟩

def recC2b : Record := ⟨3, "ub", "GET", ""⟩

def gFailC2 : String → HttpResult :=
  fun u => if u = "uk" then .transportError "refused" else .response 200 "ok"

/-- C2, witness: the claim evaluated on a three-record queue whose middle
record's transport call is refused during the first sweep. -/
theorem claim_C2_witness :
    ([recC2a] ++ recC2k :: [recC2b]).Pairwise (fun a b => a.id < b.id) ∧
    (∀ r ∈ [recC2a], callsTransportOk gFailC2 pOK r) ∧
    transportFails gFailC2 pOK recC2k ∧
    (∀ r ∈ recC2k :: [recC2b], callsTransportOk gOK pOK r) ∧
    ((∃ e, sendLoop true gFailC2 pOK ([recC2a] ++ recC2k :: [recC2b]) =
        ⟨recC2k :: [recC2b], [recC2a], [], some e⟩) ∧
      sendLoop true gOK pOK (recC2k :: [recC2b]) =
        ⟨[], recC2k :: [recC2b], [], none⟩ ∧
      (recC2k :: [recC2b]).Pairwise (fun a b => a.id < b.id)) := by
  have h1 : ([recC2a] ++ recC2k :: [recC2b]).Pairwise (fun a b => a.id < b.id) := by
    decide
  have h2 : ∀ r ∈ [recC2a], callsTransportOk gFailC2 pOK r := by
    intro r hr
    simp only [List.mem_singleton] at hr
    subst hr
    exact ⟨200, "ok", rfl⟩
  have h3 : transportFails gFailC2 pOK recC2k := ⟨"refused", rfl⟩
  have h4 : ∀ r ∈ recC2k :: [recC2b], callsTransportOk gOK pOK r := by
    intro r hr
    rcases List.mem_cons.mp hr with hr | hr
    · subst hr; exact ⟨200, "ok", rfl⟩
    · simp only [List.mem_singleton] at hr
      subst hr
      exact ⟨200, "ok", rfl⟩
  exact ⟨h1, h2, h3, h4, claim_C2 gFailC2 gOK pOK pOK [recC2a] [recC2b] recC2k h1 h2 h3 h4⟩

/-- C3: the busy flag makes sweeps single-flight.  An attempt that observes
the flag already set returns as a no-op with the dispatcher state (queue
included) untouched, both at the `send` entry and at the guarded
check-and-set itself; and in any serialization of `n ≥ 1` racing
check-and-set attempts starting from a non-busy dispatcher (the mutex makes
each read-modify-write atomic, so every interleaving is such a
serialization), exactly one attempt proceeds — the one flipping the flag —
and the queue is not touched by the others. -/
theorem claim_C3 (prep : Except String Unit) (a : Bool) (g : String → HttpResult)
    (p : String → String → HttpResult) (s t : DispState) (n : Nat)
    (hs : s.busy = true) (ht : t.busy = false) (hn : 1 ≤ n) :
    send prep a g p s = ⟨s, [], none⟩ ∧
    tryAcquire s = (false, s) ∧
    runAttempts t n = (1, ⟨true, t.queue⟩) := by
  refine ⟨by simp [send, hs], by simp [tryAcquire, hs], ?_⟩
  obtain ⟨m, rfl⟩ : ∃ m, n = m + 1 := ⟨n - 1, by omega⟩
  simp [runAttempts, tryAcquire, ht, runAttempts_busy m ⟨true, t.queue⟩ rfl]

/-- C3, witness: a busy dispatcher ignores an attempt; three serialized
attempts against an idle dispatcher let exactly one proceed. -/
theorem claim_C3_witness :
    (⟨true, [rPut]⟩ : DispState).busy = true ∧
    (⟨false, [rPut]⟩ : DispState).busy = false ∧
    1 ≤ 3 ∧
    (send (Except.ok ()) true gOK pOK ⟨true, [rPut]⟩ = ⟨⟨true, [rPut]⟩, [], none⟩ ∧
      tryAcquire ⟨true, [rPut]⟩ = (false, ⟨true, [rPut]⟩) ∧
      runAttempts ⟨false, [rPut]⟩ 3 = (1, ⟨true, [rPut]⟩)) :=
  ⟨rfl, rfl, by omega,
    claim_C3 (Except.ok ()) true gOK pOK ⟨true, [rPut]⟩ ⟨false, [rPut]⟩ 3 rfl rfl (by omega)⟩

/-- C4: every error reaching the sweep boundary is downgraded to a logged
warning and nothing is propagated to the caller: `send` never propagates on
any path; a store or transport error from the sweep body becomes exactly the
boundary's warning line; and the worker task of part 001 only ever lets an
exception escape when the post-sweep `count()` call raises — never from the
sweep itself. -/
theorem claim_C4 (prep prep2 : Except String Unit) (a : Bool)
    (g : String → HttpResult) (p : String → String → HttpResult)
    (s t : DispState) (nfy : Bool) (cr : Except String Int) (e : String)
    (ht : t.busy = false) (he : (sendBody prep2 a g p t.queue).2 = some e) :
    (send prep a g p s).propagated = none ∧
    (send prep2 a g p t).warnings = ["Error sending queued message: " ++ e] ∧
    ((timerTick prep g p nfy cr s).2.2 = none ∨ ∃ e2, cr = Except.error e2) := by
  refine ⟨send_propagated_none prep a g p s, ?_, ?_⟩
  · rcases h2 : sendBody prep2 a g p t.queue with ⟨q, exc⟩
    rw [h2] at he
    simp only at he
    subst he
    simp [send, ht, h2]
  · by_cases hb : s.busy
    · simp [timerTick, hb]
    · rcases h3 : sendBody prep true g p s.queue with ⟨q, exc⟩
      cases nfy with
      | false => simp [timerTick, hb, h3]
      | true =>
        cases cr with
        | error e2 => exact Or.inr ⟨e2, rfl⟩
        | ok k => simp [timerTick, hb, h3]

/-- C4, witness: the boundary behaviour evaluated with a failing statement
preparation (store error) on an idle dispatcher. -/
theorem claim_C4_witness :
    (⟨false, [rPut]⟩ : DispState).busy = false ∧
    (sendBody (Except.error "no such table") true gOK pOK
      (⟨false, [rPut]⟩ : DispState).queue).2 = some "no such table" ∧
    ((send (Except.ok ()) true gOK pOK ⟨false, [rPut]⟩).propagated = none ∧
      (send (Except.error "no such table") true gOK pOK ⟨false, [rPut]⟩).warnings =
        ["Error sending queued message: " ++ "no such table"] ∧
      ((timerTick (Except.ok ()) gOK pOK false (Except.ok 0)
          ⟨false, [rPut]⟩).2.2 = none ∨
        ∃ e2, (Except.ok 0 : Except String Int) = Except.error e2)) :=
  ⟨rfl, rfl,
    claim_C4 (Except.ok ()) (Except.error "no such table") true gOK pOK
      ⟨false, [rPut]⟩ ⟨false, [rPut]⟩ false (Except.ok 0) "no such table" rfl rfl⟩

/-- The two records of the C5 scenario: `recC5a` is queued before the sweep
starts, `recC5b` is inserted while the sweep is delivering `recC5a`. -/
def recC5a : Record := ⟨1, "ua", "GET", ""⟩

def recC5b : Record := ⟨2, "ub", "GET", ""⟩

/-- C5, counterexample to the claim as stated: a record inserted while the
sweep delivers the first record IS seen and delivered by that same sweep —
`select.reset()` re-executes the query before the next `step`, so the cursor
is not fixed at sweep start. -/
theorem claim_C5_counterexample :
    (sendLoopIns gOK pOK [[recC5b]] [recC5a]).delivered = [recC5a, recC5b] ∧
    (sendLoopIns gOK pOK [[recC5b]] [recC5a]).queue = [] := by
  exact ⟨rfl, rfl⟩

/-- C5, amended: because the sweep resets and re-executes the select
statement after each processed record, rows committed during an iteration
become visible to the same sweep: if the transport succeeds on everything,
a sweep over `r :: rest` during whose first iteration the batch `arr` is
inserted delivers `r :: (rest ++ arr)` — the mid-sweep inserts included —
and ends with an empty queue; only rows inserted after the sweep's final
cursor step are left to the next sweep. -/
theorem claim_C5 (g : String → HttpResult) (p : String → String → HttpResult)
    (r : Record) (rest arr : List Record)
    (hok : ∀ x ∈ r :: (rest ++ arr), callsTransportOk g p x) :
    sendLoopIns g p [arr] (r :: rest) = ⟨[], r :: (rest ++ arr), [], none⟩ := by
  have hr := hok r (List.mem_cons_self r _)
  have hrest : ∀ x ∈ rest ++ arr, callsTransportOk g p x :=
    fun x hx => hok x (List.mem_cons_of_mem r hx)
  have hall := sendLoop_all_ok g p (rest ++ arr) hrest
  cases hm : MethodFactory r.action with
  | get =>
    simp only [callsTransportOk, hm] at hr
    obtain ⟨st, b, hg⟩ := hr
    simp [sendLoopIns, hm, hg, hall]
  | post =>
    simp only [callsTransportOk, hm] at hr
    obtain ⟨st, b, hp⟩ := hr
    simp [sendLoopIns, hm, hp, hall]
  | other =>
    simp only [callsTransportOk, hm] at hr

/-- C5, witness: the amended claim evaluated on the two concrete records. -/
theorem claim_C5_witness :
    (∀ x ∈ recC5a :: ([] ++ [recC5b]), callsTransportOk gOK pOK x) ∧
    sendLoopIns gOK pOK [[recC5b]] (recC5a :: []) =
      ⟨[], recC5a :: ([] ++ [recC5b]), [], none⟩ := by
  have hok : ∀ x ∈ recC5a :: ([] ++ [recC5b]), callsTransportOk gOK pOK x := by
    intro x hx
    rcases List.mem_cons.mp hx with hx | hx
    · subst hx; exact ⟨200, "ok", rfl⟩
    · simp only [List.nil_append, List.mem_singleton] at hx
      subst hx
      exact ⟨200, "ok", rfl⟩
  exact ⟨hok, claim_C5 gOK pOK recC5a [] [recC5b] hok⟩

/-- C6: with a configured pending query, the status projection maps count 0
to the empty-named state, count 1 to the singular-worded state, and every
count above 1 to the plural-worded pending state whose summary starts with
the literal decimal rendering of the count; the SQLState messages of part
001 follow the same three-way split. -/
theorem claim_C6 (c : Nat) (hc : 1 < c) :
    state true 0 = ⟨"empty", .unimportant, "Output queue is empty"⟩ ∧
    state true 1 = ⟨"pending", .warning, "One pending request in the output queue"⟩ ∧
    (state true c).name = "pending" ∧
    (state true c).summary = toString c ++ " pending requests in the output queue" ∧
    sqlStateMsg 0 = "No pending messages" ∧
    sqlStateMsg 1 = "1 pending message" ∧
    sqlStateMsg c = toString c ++ " pending messages" := by
  have h0 : c ≠ 0 := by omega
  have h1 : c ≠ 1 := by omega
  refine ⟨rfl, rfl, ?_, ?_, rfl, rfl, ?_⟩ <;>
    simp [state, sqlStateMsg, pluralMessage, h0, h1]

/-- C6, witness: the status projection evaluated at count 5. -/
theorem claim_C6_witness :
    1 < 5 ∧
    (state true 0 = ⟨"empty", .unimportant, "Output queue is empty"⟩ ∧
      state true 1 = ⟨"pending", .warning, "One pending request in the output queue"⟩ ∧
      (state true 5).name = "pending" ∧
      (state true 5).summary = toString 5 ++ " pending requests in the output queue" ∧
      sqlStateMsg 0 = "No pending messages" ∧
      sqlStateMsg 1 = "1 pending message" ∧
      sqlStateMsg 5 = toString 5 ++ " pending messages") :=
  ⟨by omega, claim_C6 5 (by omega)⟩

/-- C7: a queued GET or POST record whose HTTP call returns a response —
with any status code, 2xx or not — is deleted from the queue in the same
iteration, and the sweep goes on with the remaining records. -/
theorem claim_C7 (g : String → HttpResult) (p : String → String → HttpResult)
    (r : Record) (rest : List Record) (st : Nat) (b : String)
    (h : (MethodFactory r.action = .get ∧ g r.url = .response st b) ∨
         (MethodFactory r.action = .post ∧ p r.url r.payload = .response st b)) :
    sendLoop true g p (r :: rest) =
      ⟨(sendLoop true g p rest).queue, r :: (sendLoop true g p rest).delivered,
        (sendLoop true g p rest).errors, (sendLoop true g p rest).aborted⟩ := by
  rcases h with ⟨hm, hc⟩ | ⟨hm, hc⟩ <;> simp [sendLoop, hm, hc]

/-- A GET record and a transport answering it with an HTTP 500 response, for
the C7 witness. -/
def recC7 : Record := ⟨7, "uc", "GET", ""⟩

def g500 : String → HttpResult := fun _ => .response 500 "server error"

/-- C7, witness: a GET record answered with a non-2xx (500) response is
still deleted in its iteration. -/
theorem claim_C7_witness :
    ((MethodFactory recC7.action = Method.get ∧
        g500 recC7.url = HttpResult.response 500 "server error") ∨
      (MethodFactory recC7.action = Method.post ∧
        pOK recC7.url recC7.payload = HttpResult.response 500 "server error")) ∧
    sendLoop true g500 pOK [recC7] =
      ⟨(sendLoop true g500 pOK []).queue, recC7 :: (sendLoop true g500 pOK []).delivered,
        (sendLoop true g500 pOK []).errors, (sendLoop true g500 pOK []).aborted⟩ :=
  ⟨Or.inl ⟨rfl, rfl⟩, claim_C7 g500 pOK recC7 [] 500 "server error" (Or.inl ⟨rfl, rfl⟩)⟩

/-- C8: constructing the protocol object succeeds exactly when the three
required templates `insert`, `delete` and `select` are present in the node
and every `init` statement executes without error; the `pending` child plays
no part in the condition, so its absence never fails construction, and any
failure is a propagated error with no object produced. -/
theorem claim_C8 (node : XmlNode) (exec : String → Except String Unit) :
    (∃ cfg, protocolInit node exec = Except.ok cfg) ↔
      (node.insert ≠ none ∧ node.del ≠ none ∧ node.select ≠ none ∧
        node.inits.forM exec = Except.ok ()) := by
  rcases node with ⟨i, d, sl, pe, il⟩
  cases i <;> cases d <;> cases sl <;>
    simp only [protocolInit, child_value] <;> try simp
  cases pe <;> rcases hF : il.forM exec with e | u <;> simp [hF]

/-- C9: with the pending-count query unconfigured — a null or an empty
template — `count` returns 0 and executes no SQL at all, whatever the
underlying store would answer. -/
theorem claim_C9 (pending : Option String) (stepGet : Except String Int)
    (h : pending = none ∨ pending = some "") :
    count pending stepGet = (Except.ok 0, 0) := by
  rcases h with rfl | rfl
  · rfl
  · rfl

/-- C9, witness: the empty template with a store whose count query would
fail; no SQL runs and 0 is returned. -/
theorem claim_C9_witness :
    ((some "" : Option String) = none ∨ (some "" : Option String) = some "") ∧
    count (some "") (Except.error "no such table") = (Except.ok 0, 0) :=
  ⟨Or.inr rfl, claim_C9 (some "") (Except.error "no such table") (Or.inr rfl)⟩

/-- C10, counterexample to the claim as stated: a timer-triggered sweep of
part 001 that sets the busy flag but whose post-sweep notify block raises
(here: the `count()` call, which runs SQL outside the lambda's try/catch and
before `busy = false`) returns with the busy flag still set. -/
theorem claim_C10_counterexample :
    (timerTick (Except.ok ()) gOK pOK true (Except.error "count failed")
      ⟨false, []⟩).1.busy = true := by
  rfl

/-- C10, amended: part 000's `send` resets the busy flag before returning on
every path, the caught-exception paths included; part 001's timer-triggered
worker resets it on every path on which the post-sweep notify block does not
raise — with notification disabled, or with `count()` returning a value —
but when notification is enabled and `count()` raises, the flag stays set. -/
theorem claim_C10 (prep : Except String Unit) (a : Bool)
    (g : String → HttpResult) (p : String → String → HttpResult)
    (s t u : DispState) (cr : Except String Int) (k : Int)
    (hs : s.busy = false) (ht : t.busy = false) (hu : u.busy = false) :
    (send prep a g p s).state.busy = false ∧
    (timerTick prep g p true (Except.ok k) t).1.busy = false ∧
    (timerTick prep g p false cr u).1.busy = false := by
  refine ⟨?_, ?_, ?_⟩
  · rcases h : sendBody prep a g p s.queue with ⟨q, _ | e⟩ <;> simp [send, hs, h]
  · rcases h : sendBody prep true g p t.queue with ⟨q, exc⟩
    simp [timerTick, ht, h]
  · rcases h : sendBody prep true g p u.queue with ⟨q, exc⟩
    simp [timerTick, hu, h]

/-- C10, witness: the amended claim evaluated on idle dispatchers, with a
failing statement preparation exercising the caught-exception path of
`send`. -/
theorem claim_C10_witness :
    (⟨false, [recC7]⟩ : DispState).busy = false ∧
    (⟨false, []⟩ : DispState).busy = false ∧
    (⟨false, [recC7]⟩ : DispState).busy = false ∧
    ((send (Except.error "locked") true gOK pOK ⟨false, [recC7]⟩).state.busy = false ∧
      (timerTick (Except.error "locked") gOK pOK true (Except.ok 2)
        ⟨false, []⟩).1.busy = false ∧
      (timerTick (Except.error "locked") gOK pOK false (Except.error "count failed")
        ⟨false, [recC7]⟩).1.busy = false) :=
  ⟨rfl, rfl, rfl,
    claim_C10 (Except.error "locked") true gOK pOK ⟨false, [recC7]⟩ ⟨false, []⟩
      ⟨false, [recC7]⟩ (Except.error "count failed") 2 rfl rfl rfl⟩

end UdjatSQLite
